import Mathlib

/-!
Shallow embedding of the life-progression and mortality engine of the
life-sim backend (src/unnamed/part_001, the Phase 3 "close calls" server).
JavaScript numbers are modelled as exact rationals extended with the IEEE
special values NaN and signed infinity; every operation the engine performs
on them (comparison, addition of constants, clamping, integer powers) is
exact, so the model agrees with the source on all the properties stated
below. Raw JSON stat and effect objects are modelled as records of optional
numbers, one per channel of STAT_KEYS; a missing or non-numeric entry is a
missing value or NaN, exactly what the Number coercion in the source yields.
-/

namespace LifeSim

/-- A JavaScript number: NaN, the two infinities, or a finite value,
modelled exactly as a rational. -/
inductive JSNum where
  | nan : JSNum
  | inf : JSNum
  | ninf : JSNum
  | num : ℚ → JSNum
deriving DecidableEq, Repr

/-- Clamp of a finite number into the unit interval,
the core of clamp01 from part_001 lines 68 to 72. -/
def clamp01Q (x : ℚ) : ℚ := max 0 (min 1 x)

/-- clamp01 from part_001 lines 68 to 72: NaN becomes 0.5, everything else
goes through Math.max(0, Math.min(1, n)); the infinities land on 1 and 0. -/
def clamp01 : JSNum → ℚ
  | .nan => 0.5
  | .inf => 1
  | .ninf => 0
  | .num q => clamp01Q q

/-- IEEE addition on the JSNum model: NaN is absorbing, opposite infinities
give NaN, an infinity otherwise wins, finite values add exactly. -/
def jsAdd : JSNum → JSNum → JSNum
  | .nan, _ => .nan
  | _, .nan => .nan
  | .inf, .ninf => .nan
  | .ninf, .inf => .nan
  | .inf, _ => .inf
  | _, .inf => .inf
  | .ninf, _ => .ninf
  | _, .ninf => .ninf
  | .num a, .num b => .num (a + b)

/-- The 7-channel stat vector, in STAT_KEYS order (part_001 line 66),
after normalization: every channel is a finite rational. -/
structure StatVector where
  money : ℚ
  stability : ℚ
  status : ℚ
  health : ℚ
  stress : ℚ
  freedom : ℚ
  exposure : ℚ
deriving DecidableEq, Repr

/-- A raw JSON stat or effect object as the endpoints receive it: each
channel is either absent or some JavaScript number (a malformed entry is
the NaN its Number coercion produces). -/
structure RawVector where
  money : Option JSNum
  stability : Option JSNum
  status : Option JSNum
  health : Option JSNum
  stress : Option JSNum
  freedom : Option JSNum
  exposure : Option JSNum
deriving DecidableEq, Repr

/-- normalizeStats from part_001 lines 97 to 101:
clamp01(stats?.[k] ?? 0.5) on every channel. -/
def normalizeStats (stats : RawVector) : StatVector where
  money := clamp01 (stats.money.getD (.num 0.5))
  stability := clamp01 (stats.stability.getD (.num 0.5))
  status := clamp01 (stats.status.getD (.num 0.5))
  health := clamp01 (stats.health.getD (.num 0.5))
  stress := clamp01 (stats.stress.getD (.num 0.5))
  freedom := clamp01 (stats.freedom.getD (.num 0.5))
  exposure := clamp01 (stats.exposure.getD (.num 0.5))

/-- normalizeEffects from part_001 lines 103 to 107:
Number(effects?.[k] ?? 0) on every channel, which may be NaN or infinite. -/
def normalizeEffects (effects : RawVector) : RawVector where
  money := some (effects.money.getD (.num 0))
  stability := some (effects.stability.getD (.num 0))
  status := some (effects.status.getD (.num 0))
  health := some (effects.health.getD (.num 0))
  stress := some (effects.stress.getD (.num 0))
  freedom := some (effects.freedom.getD (.num 0))
  exposure := some (effects.exposure.getD (.num 0))

/-- applyEffects from part_001 lines 109 to 115:
next[k] = clamp01(base[k] + eff[k]) with base the normalized stats and
eff the coerced effects. -/
def applyEffects (stats effects : RawVector) : StatVector :=
  let base := normalizeStats stats
  let eff := normalizeEffects effects
  { money := clamp01 (jsAdd (.num base.money) (eff.money.getD (.num 0)))
    stability := clamp01 (jsAdd (.num base.stability) (eff.stability.getD (.num 0)))
    status := clamp01 (jsAdd (.num base.status) (eff.status.getD (.num 0)))
    health := clamp01 (jsAdd (.num base.health) (eff.health.getD (.num 0)))
    stress := clamp01 (jsAdd (.num base.stress) (eff.stress.getD (.num 0)))
    freedom := clamp01 (jsAdd (.num base.freedom) (eff.freedom.getD (.num 0)))
    exposure := clamp01 (jsAdd (.num base.exposure) (eff.exposure.getD (.num 0))) }

/-- Every channel of a stat vector lies in the unit interval. -/
def StatVector.inRange01 (v : StatVector) : Prop :=
  0 ≤ v.money ∧ v.money ≤ 1 ∧
  0 ≤ v.stability ∧ v.stability ≤ 1 ∧
  0 ≤ v.status ∧ v.status ≤ 1 ∧
  0 ≤ v.health ∧ v.health ≤ 1 ∧
  0 ≤ v.stress ∧ v.stress ≤ 1 ∧
  0 ≤ v.freedom ∧ v.freedom ≤ 1 ∧
  0 ≤ v.exposure ∧ v.exposure ≤ 1

instance (v : StatVector) : Decidable v.inRange01 := by
  unfold StatVector.inRange01; infer_instance

/-- Wrap an already-normalized stat vector back into a raw JSON object,
as happens when the apply handler feeds next_stats to the mortality model. -/
def RawVector.ofVector (v : StatVector) : RawVector where
  money := some (.num v.money)
  stability := some (.num v.stability)
  status := some (.num v.status)
  health := some (.num v.health)
  stress := some (.num v.stress)
  freedom := some (.num v.freedom)
  exposure := some (.num v.exposure)

/-- The age-based natural trigger term of computeDeathCheckChance,
part_001 lines 291 to 304: a piecewise-linear ramp in the clamped age. -/
def naturalTrigger (a : ℚ) : ℚ :=
  if a < 50 then 0.001
  else if a < 70 then 0.005 + ((a - 50) / 20) * 0.02
  else if a < 85 then 0.025 + ((a - 70) / 15) * 0.075
  else if a < 95 then 0.10 + ((a - 85) / 10) * 0.25
  else if a < 105 then 0.35 + ((a - 95) / 10) * 0.35
  else 0.70 + ((a - 105) / 6) * 0.25

/-- Body of computeDeathCheckChance on an already-normalized stat vector,
part_001 lines 272 to 310: hard cap at 111, hard floor below 17, then a
combination of the convex risk term, the natural age term and the
stability buffer, clamped into [0, 0.95]. -/
def deathChanceOf (age : ℚ) (s : StatVector) : ℚ :=
  let a := max 0 (min 111 age)
  if 111 ≤ a then 1
  else if a < 17 then 0
  else
    let exposureDanger := s.exposure ^ 3 * 0.20
    let healthCrisis := (1 - s.health) ^ 3 * 0.10
    let stressCrack := s.stress ^ 3 * 0.06
    let riskTrigger := exposureDanger + healthCrisis + stressCrack
    let nat := naturalTrigger a
    let stabilityBuffer := max 0 ((s.stability - 0.5) * 0.05)
    let combined := max nat riskTrigger + min nat riskTrigger * 0.2
    max 0 (min 0.95 (combined - stabilityBuffer))

/-- computeDeathCheckChance from part_001 lines 272 to 310: the stats
object is normalized first, exactly as the source does. -/
def computeDeathCheckChance (age : ℚ) (stats : RawVector) : ℚ :=
  deathChanceOf age (normalizeStats stats)

/-- Outcome of a fired death check, the return shape of resolveDeathCheck. -/
structure DeathResult where
  died : Bool
  closeCall : Bool
deriving DecidableEq, Repr

/-- The shieldChance table of resolveDeathCheck, part_001 lines 328 to 333. -/
def shieldChance : List ℚ := [1.00, 0.85, 0.55, 0.20]

/-- Shield probability at a given close-call count:
shieldChance[Math.min(closeCallCount, 3)], part_001 line 334. -/
def shieldAt (closeCallCount : ℕ) : ℚ :=
  shieldChance.getD (min closeCallCount 3) 0

/-- resolveDeathCheck from part_001 lines 313 to 343. The two Math.random()
draws are explicit parameters: bypassDraw for the natural-age bypass roll
and shieldDraw for the shield roll; each lies in [0, 1). -/
def resolveDeathCheck (age : ℚ) (closeCallCount : ℕ) (isNaturalAge : Bool)
    (bypassDraw shieldDraw : ℚ) : DeathResult :=
  if 111 ≤ age then { died := true, closeCall := false }
  else if isNaturalAge = true ∧ 90 ≤ age ∧ bypassDraw < min 1 ((age - 90) / 20) then
    { died := true, closeCall := false }
  else if shieldDraw < shieldAt closeCallCount then
    { died := false, closeCall := true }
  else { died := true, closeCall := false }

/-- The fixed penalty bundle of closeCallPenalties,
part_001 lines 346 to 353. -/
structure CloseCallPenalties where
  health : ℚ
  stress : ℚ
  exposure : ℚ
  stability : ℚ
deriving DecidableEq, Repr

/-- closeCallPenalties from part_001 lines 346 to 353. -/
def closeCallPenalties : CloseCallPenalties where
  health := -0.10
  stress := 0.20
  exposure := -0.15
  stability := -0.05

/-- The close-call penalty application of the apply handler, part_001 lines
1292 to 1301: each penalized channel is clamped after adding its delta
(money, status and freedom carry no penalty and are untouched), then the
health floor of line 1301 is applied. -/
def closeCallAdjust (s : StatVector) : StatVector :=
  let p := closeCallPenalties
  let s1 : StatVector :=
    { s with
      health := clamp01Q (s.health + p.health)
      stress := clamp01Q (s.stress + p.stress)
      exposure := clamp01Q (s.exposure + p.exposure)
      stability := clamp01Q (s.stability + p.stability) }
  if s1.health < 0.10 then { s1 with health := 0.10 } else s1

/-- A relationship slot as stored in a session. -/
structure Relationship where
  name : String
  role : String
  display : String
deriving DecidableEq, Repr

/-- A stored session record, the per-run state the SESSIONS map holds:
age, stat vector, relationship slots, choice history, close-call ledger,
the just-had-close-call flag and the lifecycle flag. -/
structure Session where
  age : ℚ
  stats : StatVector
  relationships : List Relationship
  history : List String
  close_calls : ℕ
  just_had_close_call : Bool
  died : Bool
deriving DecidableEq, Repr

/-- The JSON body the apply handler returns, part_001 lines 1344 to 1350. -/
structure ApplyResult where
  next_stats : StatVector
  died : Bool
  close_call : Bool
  close_call_count : ℕ
  death_check_chance : ℚ
deriving DecidableEq, Repr

/-- Core of the POST /api/apply handler, part_001 lines 1251 to 1357, for a
request whose session exists: apply the chosen effects, run the two-stage
mortality model (the three Math.random() draws are explicit parameters),
apply close-call penalties and the health floor on survival, increment the
ledger, force death at the age-111 cap, and write the updated session back
to the store. Returns the response body and the stored session. -/
def applyHandler (age : ℚ) (stats effects : RawVector) (session : Session)
    (checkDraw bypassDraw shieldDraw : ℚ) : ApplyResult × Session :=
  let next0 := applyEffects stats effects
  let count0 := session.close_calls
  let p := computeDeathCheckChance age (RawVector.ofVector next0)
  let triggered : Bool := decide (checkDraw < p)
  let r : DeathResult :=
    if triggered then
      resolveDeathCheck age count0 (decide ((90 : ℚ) ≤ age)) bypassDraw shieldDraw
    else { died := false, closeCall := false }
  let next1 := if r.closeCall then closeCallAdjust next0 else next0
  let count1 := if r.closeCall then count0 + 1 else count0
  let diedFinal : Bool := r.died || decide ((111 : ℚ) ≤ age)
  let session1 : Session :=
    { session with
      stats := next1
      close_calls := count1
      just_had_close_call := session.just_had_close_call || r.closeCall
      died := session.died || diedFinal }
  ({ next_stats := next1
     died := diedFinal
     close_call := r.closeCall
     close_call_count := count1
     death_check_chance := p }, session1)

/-- The state the session store is left in when a non-birth POST /api/turn
fails in the generator call: the handler reads and clears the
just-had-close-call flag before calling the generator (part_001 lines 958
to 968) and commits nothing else on the failure path (the setSession of
line 1069 is never reached, the catch of line 1238 only answers 500). -/
def turnSessionAfterGenFailure (session : Session) : Session :=
  if session.just_had_close_call then { session with just_had_close_call := false }
  else session

/-- An error thrown inside withRetry, carrying the optional HTTP status the
retry loop inspects. -/
structure JSError where
  status : Option ℕ
deriving DecidableEq, Repr

/-- The 4xx test of withRetry, part_001 line 444:
err?.status at least 400 and below 500. -/
def isClientError (e : JSError) : Bool :=
  match e.status with
  | some s => decide (400 ≤ s) && decide (s < 500)
  | none => false

/-- Retry loop of withRetry, part_001 lines 434 to 453, with the outcome of
each attempt given as a function of the attempt number: return the first
success, rethrow a 4xx error immediately, and after the last attempt throw
the last error. The remaining count is the number of attempts still allowed
after the current one. -/
def withRetryFrom {α : Type} (fn : ℕ → Except JSError α) (attempt : ℕ) :
    ℕ → Except JSError α
  | 0 =>
    match fn attempt with
    | .ok a => .ok a
    | .error e => .error e
  | remaining + 1 =>
    match fn attempt with
    | .ok a => .ok a
    | .error e =>
      if isClientError e then .error e
      else withRetryFrom fn (attempt + 1) remaining

/-- withRetry from part_001 lines 434 to 453, with maxAttempts attempts
numbered from 1 (the exponential backoff delay is timing only and has no
bearing on the returned value). -/
def withRetry {α : Type} (fn : ℕ → Except JSError α) (maxAttempts : ℕ) :
    Except JSError α :=
  withRetryFrom fn 1 (maxAttempts - 1)

/-! Basic facts about the clamp. -/

theorem clamp01Q_nonneg (x : ℚ) : 0 ≤ clamp01Q x := le_max_left 0 _

theorem clamp01Q_le_one (x : ℚ) : clamp01Q x ≤ 1 :=
  max_le (by norm_num) (min_le_left 1 x)

theorem clamp01Q_mono {x y : ℚ} (h : x ≤ y) : clamp01Q x ≤ clamp01Q y :=
  max_le_max le_rfl (min_le_min le_rfl h)

theorem clamp01_nonneg (j : JSNum) : 0 ≤ clamp01 j := by
  cases j with
  | nan => norm_num [clamp01]
  | inf => norm_num [clamp01]
  | ninf => norm_num [clamp01]
  | num q => exact clamp01Q_nonneg q

theorem clamp01_le_one (j : JSNum) : clamp01 j ≤ 1 := by
  cases j with
  | nan => norm_num [clamp01]
  | inf => norm_num [clamp01]
  | ninf => norm_num [clamp01]
  | num q => exact clamp01Q_le_one q

theorem normalizeStats_inRange01 (stats : RawVector) :
    (normalizeStats stats).inRange01 := by
  refine ⟨clamp01_nonneg _, clamp01_le_one _, clamp01_nonneg _, clamp01_le_one _,
    clamp01_nonneg _, clamp01_le_one _, clamp01_nonneg _, clamp01_le_one _,
    clamp01_nonneg _, clamp01_le_one _, clamp01_nonneg _, clamp01_le_one _,
    clamp01_nonneg _, clamp01_le_one _⟩

/-- C5: for every input to applyEffects, malformed, missing, NaN or
out-of-range stats and effects included, the result is a StatVector whose
7 channels all lie in [0,1]; the function is total over all raw inputs and
coerces rather than rejects. -/
theorem applyEffects_inRange01 (stats effects : RawVector) :
    (applyEffects stats effects).inRange01 := by
  refine ⟨clamp01_nonneg _, clamp01_le_one _, clamp01_nonneg _, clamp01_le_one _,
    clamp01_nonneg _, clamp01_le_one _, clamp01_nonneg _, clamp01_le_one _,
    clamp01_nonneg _, clamp01_le_one _, clamp01_nonneg _, clamp01_le_one _,
    clamp01_nonneg _, clamp01_le_one _⟩

/-! The hard cap and the hard floor of the mortality model. -/

/-- C1: at or above the hard cap of 111, the mortality model resolves to
death for every stat vector, close-call count and random draw:
computeDeathCheckChance returns 1, and resolveDeathCheck returns died with
no close call, before any shield is consulted. -/
theorem mortality_hard_cap (age : ℚ) (stats : RawVector) (closeCallCount : ℕ)
    (isNaturalAge : Bool) (bypassDraw shieldDraw : ℚ) (h : 111 ≤ age) :
    computeDeathCheckChance age stats = 1 ∧
    resolveDeathCheck age closeCallCount isNaturalAge bypassDraw shieldDraw =
      { died := true, closeCall := false } := by
  constructor
  · have hm : min 111 age = 111 := min_eq_left h
    have hM : max 0 (min 111 age) = 111 := by rw [hm]; norm_num
    unfold computeDeathCheckChance deathChanceOf
    rw [hM]
    norm_num
  · unfold resolveDeathCheck
    rw [if_pos h]

theorem mortality_hard_cap_witness :
    computeDeathCheckChance 120 (RawVector.ofVector ⟨0.5, 0.5, 0.5, 0.5, 0.5, 0.5, 0.5⟩) = 1 ∧
    resolveDeathCheck 120 2 true 0.5 0.5 = { died := true, closeCall := false } :=
  mortality_hard_cap 120 _ 2 true 0.5 0.5 (by norm_num)

/-- C2: below the adult threshold of 17, computeDeathCheckChance is exactly
0 for every stat vector, so a death check can never fire before
adulthood. -/
theorem mortality_hard_floor (age : ℚ) (stats : RawVector) (h : age < 17) :
    computeDeathCheckChance age stats = 0 := by
  have h17 : max 0 (min 111 age) < 17 :=
    max_lt (by norm_num) (lt_of_le_of_lt (min_le_right 111 age) h)
  have h111 : ¬ (111 ≤ max 0 (min 111 age)) := by linarith
  unfold computeDeathCheckChance deathChanceOf
  rw [if_neg h111, if_pos h17]

theorem mortality_hard_floor_witness :
    computeDeathCheckChance 10 (RawVector.ofVector ⟨0, 0, 0, 0, 1, 0, 1⟩) = 0 :=
  mortality_hard_floor 10 _ (by norm_num)

/-! Monotonicity of the death-check trigger probability. -/

theorem naturalTrigger_mono {a b : ℚ} (h : a ≤ b) :
    naturalTrigger a ≤ naturalTrigger b := by
  unfold naturalTrigger
  split_ifs <;> linarith

theorem naturalTrigger_nonneg (a : ℚ) : 0 ≤ naturalTrigger a := by
  unfold naturalTrigger
  split_ifs <;> linarith

/-- The combine step of computeDeathCheckChance, max plus a fifth of the
min, is monotone in its first argument. -/
theorem combine_mono_left {n1 n2 r : ℚ} (h : n1 ≤ n2) :
    max n1 r + min n1 r * 0.2 ≤ max n2 r + min n2 r * 0.2 := by
  rw [max_def, max_def, min_def, min_def]
  split_ifs <;> linarith

/-- The combine step of computeDeathCheckChance is monotone in its second
argument. -/
theorem combine_mono_right {n r1 r2 : ℚ} (h : r1 ≤ r2) :
    max n r1 + min n r1 * 0.2 ≤ max n r2 + min n r2 * 0.2 := by
  rw [max_def, max_def, min_def, min_def]
  split_ifs <;> linarith

theorem deathChanceOf_nonneg (age : ℚ) (s : StatVector) :
    0 ≤ deathChanceOf age s := by
  unfold deathChanceOf
  dsimp only
  split_ifs <;> simp [le_max_left]

theorem deathChanceOf_le_one (age : ℚ) (s : StatVector) :
    deathChanceOf age s ≤ 1 := by
  unfold deathChanceOf
  dsimp only
  split_ifs
  · exact le_rfl
  · norm_num
  · exact max_le (by norm_num) ((min_le_left _ _).trans (by norm_num))

theorem deathChanceOf_mono_age {a1 a2 : ℚ} (s : StatVector) (h : a1 ≤ a2) :
    deathChanceOf a1 s ≤ deathChanceOf a2 s := by
  have hA : max 0 (min 111 a1) ≤ max 0 (min 111 a2) :=
    max_le_max le_rfl (min_le_min le_rfl h)
  have hle1 := deathChanceOf_le_one a1 s
  have hge0 := deathChanceOf_nonneg a2 s
  unfold deathChanceOf at hle1 hge0 ⊢
  dsimp only at hle1 hge0 ⊢
  split_ifs at hle1 hge0 ⊢ with h1 h2 h3 h4 h5 h6 <;>
    first
      | exact le_rfl
      | linarith
      | skip
  · -- both ages land in the middle branch: only the natural term moves
    refine max_le_max le_rfl (min_le_min le_rfl ?_)
    have := @combine_mono_left
      (naturalTrigger (max 0 (min 111 a1)))
      (naturalTrigger (max 0 (min 111 a2)))
      (s.exposure ^ 3 * 0.20 + (1 - s.health) ^ 3 * 0.10 + s.stress ^ 3 * 0.06)
      (naturalTrigger_mono hA)
    linarith

/-- Holding age fixed, deathChanceOf is monotone when exposure and stress
rise, health falls and stability is unchanged, over channels in range. -/
theorem deathChanceOf_mono_stats (age : ℚ) (s1 s2 : StatVector)
    (hstab : s1.stability = s2.stability)
    (hexp0 : 0 ≤ s1.exposure) (hexp : s1.exposure ≤ s2.exposure)
    (hstr0 : 0 ≤ s1.stress) (hstr : s1.stress ≤ s2.stress)
    (hh1 : s1.health ≤ 1) (hhp : s2.health ≤ s1.health) :
    deathChanceOf age s1 ≤ deathChanceOf age s2 := by
  have hE : s1.exposure ^ 3 ≤ s2.exposure ^ 3 := pow_le_pow_left₀ hexp0 hexp 3
  have hH : (1 - s1.health) ^ 3 ≤ (1 - s2.health) ^ 3 :=
    pow_le_pow_left₀ (by linarith) (by linarith) 3
  have hS : s1.stress ^ 3 ≤ s2.stress ^ 3 := pow_le_pow_left₀ hstr0 hstr 3
  have hR : s1.exposure ^ 3 * 0.20 + (1 - s1.health) ^ 3 * 0.10 + s1.stress ^ 3 * 0.06 ≤
      s2.exposure ^ 3 * 0.20 + (1 - s2.health) ^ 3 * 0.10 + s2.stress ^ 3 * 0.06 := by
    nlinarith
  unfold deathChanceOf
  dsimp only
  split_ifs
  · exact le_rfl
  · exact le_rfl
  · rw [hstab]
    refine max_le_max le_rfl (min_le_min le_rfl ?_)
    have := @combine_mono_right
      (naturalTrigger (max 0 (min 111 age))) _ _ hR
    linarith

/-- C6: holding all other inputs fixed, computeDeathCheckChance is weakly
monotone non-decreasing in age, in exposure, in stress, and in
(1 - health). -/
theorem computeDeathCheckChance_monotone :
    (∀ (stats : RawVector) (a1 a2 : ℚ), a1 ≤ a2 →
      computeDeathCheckChance a1 stats ≤ computeDeathCheckChance a2 stats) ∧
    (∀ (stats : RawVector) (age e1 e2 : ℚ), e1 ≤ e2 →
      computeDeathCheckChance age { stats with exposure := some (.num e1) } ≤
      computeDeathCheckChance age { stats with exposure := some (.num e2) }) ∧
    (∀ (stats : RawVector) (age t1 t2 : ℚ), t1 ≤ t2 →
      computeDeathCheckChance age { stats with stress := some (.num t1) } ≤
      computeDeathCheckChance age { stats with stress := some (.num t2) }) ∧
    (∀ (stats : RawVector) (age h1 h2 : ℚ), 1 - h1 ≤ 1 - h2 →
      computeDeathCheckChance age { stats with health := some (.num h1) } ≤
      computeDeathCheckChance age { stats with health := some (.num h2) }) := by
  refine ⟨?_, ?_, ?_, ?_⟩
  · intro stats a1 a2 h
    exact deathChanceOf_mono_age _ h
  · intro stats age e1 e2 h
    exact deathChanceOf_mono_stats age _ _ rfl (clamp01Q_nonneg e1) (clamp01Q_mono h)
      (clamp01_nonneg _) le_rfl (clamp01_le_one _) le_rfl
  · intro stats age t1 t2 h
    exact deathChanceOf_mono_stats age _ _ rfl (clamp01_nonneg _) le_rfl
      (clamp01Q_nonneg t1) (clamp01Q_mono h) (clamp01_le_one _) le_rfl
  · intro stats age h1 h2 h
    have hh : h2 ≤ h1 := by linarith
    exact deathChanceOf_mono_stats age _ _ rfl (clamp01_nonneg _) le_rfl
      (clamp01_nonneg _) le_rfl (clamp01_le_one _) (clamp01Q_mono hh)

theorem computeDeathCheckChance_monotone_witness :
    (computeDeathCheckChance 40 (RawVector.ofVector ⟨0.5, 0.5, 0.5, 0.5, 0.5, 0.5, 0.5⟩) ≤
      computeDeathCheckChance 80 (RawVector.ofVector ⟨0.5, 0.5, 0.5, 0.5, 0.5, 0.5, 0.5⟩)) ∧
    (computeDeathCheckChance 40
        { RawVector.ofVector ⟨0.5, 0.5, 0.5, 0.5, 0.5, 0.5, 0.5⟩ with exposure := some (.num 0.2) } ≤
      computeDeathCheckChance 40
        { RawVector.ofVector ⟨0.5, 0.5, 0.5, 0.5, 0.5, 0.5, 0.5⟩ with exposure := some (.num 0.9) }) ∧
    (computeDeathCheckChance 40
        { RawVector.ofVector ⟨0.5, 0.5, 0.5, 0.5, 0.5, 0.5, 0.5⟩ with stress := some (.num 0.1) } ≤
      computeDeathCheckChance 40
        { RawVector.ofVector ⟨0.5, 0.5, 0.5, 0.5, 0.5, 0.5, 0.5⟩ with stress := some (.num 0.8) }) ∧
    (computeDeathCheckChance 40
        { RawVector.ofVector ⟨0.5, 0.5, 0.5, 0.5, 0.5, 0.5, 0.5⟩ with health := some (.num 0.9) } ≤
      computeDeathCheckChance 40
        { RawVector.ofVector ⟨0.5, 0.5, 0.5, 0.5, 0.5, 0.5, 0.5⟩ with health := some (.num 0.1) }) :=
  ⟨computeDeathCheckChance_monotone.1 _ 40 80 (by norm_num),
   computeDeathCheckChance_monotone.2.1 _ 40 0.2 0.9 (by norm_num),
   computeDeathCheckChance_monotone.2.2.1 _ 40 0.1 0.8 (by norm_num),
   computeDeathCheckChance_monotone.2.2.2 _ 40 0.9 0.1 (by norm_num)⟩

/-! The close-call shield. -/

/-- C7: the shield probability resolveDeathCheck draws against is monotone
non-increasing in the close-call count and sits in the specified bands
(1 at count 0, within 0.75 to 0.85 at count 1, within 0.4 to 0.55 at
count 2, within 0.10 to 0.20 at count 3 or more); consequently, below age
90 (hence below the 111 cap) a fired check at close-call count 0 always
resolves as a survived close call, never as death, whatever the draws in
[0, 1) and the natural-age flag. -/
theorem shield_monotone_and_first_close_call_survives :
    (∀ n : ℕ, shieldAt (n + 1) ≤ shieldAt n) ∧
    shieldAt 0 = 1 ∧
    (0.75 ≤ shieldAt 1 ∧ shieldAt 1 ≤ 0.85) ∧
    (0.4 ≤ shieldAt 2 ∧ shieldAt 2 ≤ 0.55) ∧
    (∀ n : ℕ, 3 ≤ n → 0.10 ≤ shieldAt n ∧ shieldAt n ≤ 0.20) ∧
    (∀ (age bypassDraw shieldDraw : ℚ) (isNaturalAge : Bool),
      age < 90 → 0 ≤ shieldDraw → shieldDraw < 1 →
      resolveDeathCheck age 0 isNaturalAge bypassDraw shieldDraw =
        { died := false, closeCall := true }) := by
  refine ⟨?_, by norm_num [shieldAt, shieldChance], by norm_num [shieldAt, shieldChance], by norm_num [shieldAt, shieldChance], ?_, ?_⟩
  · intro n
    match n with
    | 0 => norm_num [shieldAt, shieldChance]
    | 1 => norm_num [shieldAt, shieldChance]
    | 2 => norm_num [shieldAt, shieldChance]
    | m + 3 =>
      have h1 : min (m + 3 + 1) 3 = 3 := by omega
      have h2 : min (m + 3) 3 = 3 := by omega
      rw [shieldAt, shieldAt, h1, h2]
  · intro n hn
    have h3 : min n 3 = 3 := by omega
    rw [shieldAt, h3]
    norm_num [shieldChance]
  · intro age bypassDraw shieldDraw isNaturalAge hage h0 h1
    have hcap : ¬ (111 ≤ age) := by linarith
    have hnat : ¬ (isNaturalAge = true ∧ 90 ≤ age ∧
        bypassDraw < min 1 ((age - 90) / 20)) := by
      rintro ⟨-, h90, -⟩
      linarith
    have hshield : shieldDraw < shieldAt 0 := by
      have h : shieldAt 0 = 1 := by norm_num [shieldAt, shieldChance]
      linarith
    unfold resolveDeathCheck
    rw [if_neg hcap, if_neg hnat, if_pos hshield]

theorem shield_monotone_witness :
    resolveDeathCheck 30 0 true 0 0.5 = { died := false, closeCall := true } :=
  (shield_monotone_and_first_close_call_survives.2.2.2.2.2) 30 0 0.5 true
    (by norm_num) (by norm_num) (by norm_num)

/-- C10: for every input and every outcome of the random draws,
resolveDeathCheck returns exactly one of died and closeCall true — never
both and never neither. -/
theorem resolveDeathCheck_exactly_one_outcome
    (age : ℚ) (closeCallCount : ℕ) (isNaturalAge : Bool)
    (bypassDraw shieldDraw : ℚ) :
    ((resolveDeathCheck age closeCallCount isNaturalAge bypassDraw shieldDraw).died = true ∧
      (resolveDeathCheck age closeCallCount isNaturalAge bypassDraw shieldDraw).closeCall = false) ∨
    ((resolveDeathCheck age closeCallCount isNaturalAge bypassDraw shieldDraw).died = false ∧
      (resolveDeathCheck age closeCallCount isNaturalAge bypassDraw shieldDraw).closeCall = true) := by
  unfold resolveDeathCheck
  split_ifs <;> simp

/-! Concrete fixtures used by witnesses and counterexamples. -/

/-- The all-0.5 stat vector. -/
def statHalf : StatVector :=
  { money := 0.5, stability := 0.5, status := 0.5, health := 0.5,
    stress := 0.5, freedom := 0.5, exposure := 0.5 }

/-- The all-0.5 stat vector as a raw request object. -/
def rawHalf : RawVector := RawVector.ofVector statHalf

/-- An effect set that only raises money by 0.1. -/
def effMoneyTenth : RawVector :=
  { money := some (.num 0.1), stability := none, status := none, health := none,
    stress := none, freedom := none, exposure := none }

/-- The empty effect set: every channel missing, hence delta 0. -/
def effNone : RawVector :=
  { money := none, stability := none, status := none, health := none,
    stress := none, freedom := none, exposure := none }

/-- A reckless raw stat object: zero health, maximal stress and exposure. -/
def rawReckless : RawVector :=
  { money := some (.num 0.5), stability := some (.num 0.5), status := some (.num 0.5),
    health := some (.num 0), stress := some (.num 1), freedom := some (.num 0.5),
    exposure := some (.num 1) }

/-- A stored session whose run has already terminated. -/
def sessDead : Session :=
  { age := 30, stats := statHalf, relationships := [], history := [],
    close_calls := 0, just_had_close_call := false, died := true }

/-- A live stored session with an empty ledger. -/
def sessAlive : Session :=
  { age := 30, stats := statHalf, relationships := [], history := [],
    close_calls := 0, just_had_close_call := false, died := false }

/-- A live stored session that just survived a close call. -/
def sessJust : Session :=
  { age := 40, stats := statHalf, relationships := [], history := [],
    close_calls := 2, just_had_close_call := true, died := false }

/-! The close-call ledger through the apply handler. -/

/-- C9: an apply operation returns close_call_count equal to the stored
count plus exactly 1 when the check resolved as a close call and equal to
the stored count otherwise, the stored ledger is updated to that same
value, and the count never decreases. -/
theorem applyHandler_ledger_monotone (age : ℚ) (stats effects : RawVector)
    (session : Session) (checkDraw bypassDraw shieldDraw : ℚ) :
    (applyHandler age stats effects session checkDraw bypassDraw shieldDraw).1.close_call_count =
      (if (applyHandler age stats effects session checkDraw bypassDraw shieldDraw).1.close_call
        then session.close_calls + 1 else session.close_calls) ∧
    (applyHandler age stats effects session checkDraw bypassDraw shieldDraw).2.close_calls =
      (applyHandler age stats effects session checkDraw bypassDraw shieldDraw).1.close_call_count ∧
    session.close_calls ≤
      (applyHandler age stats effects session checkDraw bypassDraw shieldDraw).2.close_calls := by
  unfold applyHandler
  dsimp only
  split_ifs <;> simp_all

/-! Terminal runs through the apply handler. -/

/-- C3 counterexample: a request against a run whose died flag is already
true is not rejected; the apply handler processes it and mutates the stored
StatVector (here money moves from 0.5 to 0.6 while no death check fires). -/
theorem terminal_apply_not_rejected_counterexample :
    sessDead.died = true ∧
    ((applyHandler 30 rawHalf effMoneyTenth sessDead 0.5 0 0).2).stats ≠ sessDead.stats ∧
    ((applyHandler 30 rawHalf effMoneyTenth sessDead 0.5 0 0).2).stats.money = 0.6 := by
  have hmoney : ((applyHandler 30 rawHalf effMoneyTenth sessDead 0.5 0 0).2).stats.money = 0.6 := by
    norm_num [applyHandler, applyEffects, normalizeStats, normalizeEffects, RawVector.ofVector,
      rawHalf, effMoneyTenth, sessDead, statHalf, clamp01, clamp01Q, jsAdd,
      computeDeathCheckChance, deathChanceOf, naturalTrigger, resolveDeathCheck,
      shieldAt, shieldChance, closeCallAdjust, closeCallPenalties, max_def, min_def]
  refine ⟨rfl, ?_, hmoney⟩
  intro heq
  have h2 := congrArg StatVector.money heq
  rw [hmoney] at h2
  norm_num [sessDead, statHalf] at h2

/-- C3 amended: the apply handler never rejects a request against a
terminated run and may mutate the stored StatVector and ledger; what does
hold is that the died flag is irreversible — once the stored died flag is
true it stays true after any apply — and an apply never changes the stored
age, relationships or history. -/
theorem applyHandler_died_irreversible (age : ℚ) (stats effects : RawVector)
    (session : Session) (checkDraw bypassDraw shieldDraw : ℚ)
    (h : session.died = true) :
    ((applyHandler age stats effects session checkDraw bypassDraw shieldDraw).2).died = true ∧
    ((applyHandler age stats effects session checkDraw bypassDraw shieldDraw).2).age =
      session.age ∧
    ((applyHandler age stats effects session checkDraw bypassDraw shieldDraw).2).relationships =
      session.relationships ∧
    ((applyHandler age stats effects session checkDraw bypassDraw shieldDraw).2).history =
      session.history := by
  unfold applyHandler
  dsimp only
  simp [h]

theorem applyHandler_died_irreversible_witness :
    ((applyHandler 30 rawHalf effMoneyTenth sessDead 0.5 0 0).2).died = true ∧
    ((applyHandler 30 rawHalf effMoneyTenth sessDead 0.5 0 0).2).age = sessDead.age ∧
    ((applyHandler 30 rawHalf effMoneyTenth sessDead 0.5 0 0).2).relationships =
      sessDead.relationships ∧
    ((applyHandler 30 rawHalf effMoneyTenth sessDead 0.5 0 0).2).history =
      sessDead.history :=
  applyHandler_died_irreversible 30 rawHalf effMoneyTenth sessDead 0.5 0 0 rfl

/-! The close-call penalty bundle. -/

/-- C8: a survived death check applies the fixed penalty bundle after the
chosen effect set — health down by 0.10, stress up by 0.20, exposure down
by 0.15, stability down by 0.05, each clamped — and the resulting health is
floored at 0.10, so no sequence of repeated close calls can drive health
to zero. -/
theorem close_call_penalty_bundle :
    (∀ s : StatVector, 0.10 ≤ (closeCallAdjust s).health) ∧
    (∀ s : StatVector, 0.10 ≤ s.health → (closeCallAdjust s).health ≤ s.health) ∧
    (∀ s : StatVector, s.stress ≤ 1 → s.stress ≤ (closeCallAdjust s).stress) ∧
    (∀ s : StatVector, 0 ≤ s.exposure → (closeCallAdjust s).exposure ≤ s.exposure) ∧
    (∀ s : StatVector, 0 ≤ s.stability → (closeCallAdjust s).stability ≤ s.stability) ∧
    (∀ (age : ℚ) (stats effects : RawVector) (session : Session) (d1 d2 d3 : ℚ),
      (applyHandler age stats effects session d1 d2 d3).1.close_call = true →
      (applyHandler age stats effects session d1 d2 d3).1.next_stats =
        closeCallAdjust (applyEffects stats effects)) ∧
    (∀ (s : StatVector) (n : ℕ), 0.10 ≤ (closeCallAdjust^[n + 1] s).health) := by
  have hbase : ∀ s : StatVector, 0.10 ≤ (closeCallAdjust s).health := by
    intro s
    unfold closeCallAdjust
    dsimp only
    split_ifs with h
    · simp
    · simpa using le_of_not_lt h
  refine ⟨hbase, ?_, ?_, ?_, ?_, ?_, ?_⟩
  · intro s hs
    unfold closeCallAdjust
    dsimp only
    split_ifs with h
    · simpa using hs
    · simp only [closeCallPenalties, clamp01Q]
      exact max_le (by linarith) ((min_le_right _ _).trans (by linarith))
  · intro s hs
    unfold closeCallAdjust
    dsimp only
    split_ifs with h
    · simp only [closeCallPenalties, clamp01Q]
      exact le_trans (le_min hs (by linarith)) (le_max_right _ _)
    · simp only [closeCallPenalties, clamp01Q]
      exact le_trans (le_min hs (by linarith)) (le_max_right _ _)
  · intro s hs
    unfold closeCallAdjust
    dsimp only
    split_ifs with h
    · simp only [closeCallPenalties, clamp01Q]
      exact max_le hs ((min_le_right _ _).trans (by linarith))
    · simp only [closeCallPenalties, clamp01Q]
      exact max_le hs ((min_le_right _ _).trans (by linarith))
  · intro s hs
    unfold closeCallAdjust
    dsimp only
    split_ifs with h
    · simp only [closeCallPenalties, clamp01Q]
      exact max_le hs ((min_le_right _ _).trans (by linarith))
    · simp only [closeCallPenalties, clamp01Q]
      exact max_le hs ((min_le_right _ _).trans (by linarith))
  · intro age stats effects session d1 d2 d3 h
    unfold applyHandler at h ⊢
    dsimp only at h ⊢
    split_ifs at h ⊢
    all_goals simp_all
  · intro s n
    rw [Function.iterate_succ_apply']
    exact hbase _

theorem close_call_penalty_bundle_witness :
    0.10 ≤ (closeCallAdjust statHalf).health ∧
    (closeCallAdjust statHalf).health ≤ statHalf.health ∧
    statHalf.stress ≤ (closeCallAdjust statHalf).stress ∧
    (closeCallAdjust statHalf).exposure ≤ statHalf.exposure ∧
    (closeCallAdjust statHalf).stability ≤ statHalf.stability ∧
    (applyHandler 30 rawReckless effNone sessAlive 0 0 0).1.next_stats =
      closeCallAdjust (applyEffects rawReckless effNone) ∧
    0.10 ≤ (closeCallAdjust^[3] statHalf).health :=
  ⟨close_call_penalty_bundle.1 statHalf,
   close_call_penalty_bundle.2.1 statHalf (by norm_num [statHalf]),
   close_call_penalty_bundle.2.2.1 statHalf (by norm_num [statHalf]),
   close_call_penalty_bundle.2.2.2.1 statHalf (by norm_num [statHalf]),
   close_call_penalty_bundle.2.2.2.2.1 statHalf (by norm_num [statHalf]),
   close_call_penalty_bundle.2.2.2.2.2.1 30 rawReckless effNone sessAlive 0 0 0 (by
     norm_num [applyHandler, applyEffects, normalizeStats, normalizeEffects, RawVector.ofVector,
       rawReckless, effNone, sessAlive, statHalf, clamp01, clamp01Q, jsAdd,
       computeDeathCheckChance, deathChanceOf, naturalTrigger, resolveDeathCheck,
       shieldAt, shieldChance, max_def, min_def]),
   close_call_penalty_bundle.2.2.2.2.2.2 statHalf 2⟩

/-! Generator failure at the orchestration boundary. -/

theorem withRetryFrom_all_fail {α : Type} (fn : ℕ → Except JSError α)
    (h : ∀ i, ∃ e, fn i = Except.error e) :
    ∀ (remaining attempt : ℕ), ∃ e, withRetryFrom fn attempt remaining = Except.error e := by
  intro remaining
  induction remaining with
  | zero =>
    intro attempt
    obtain ⟨e, he⟩ := h attempt
    exact ⟨e, by simp [withRetryFrom, he]⟩
  | succ r ih =>
    intro attempt
    obtain ⟨e, he⟩ := h attempt
    by_cases hc : isClientError e = true
    · exact ⟨e, by simp [withRetryFrom, he, hc]⟩
    · obtain ⟨e2, he2⟩ := ih (attempt + 1)
      exact ⟨e2, by simp [withRetryFrom, he, hc, he2]⟩

/-- C4 counterexample: the stored session is not left exactly as it was
when the generator exhausts its retries — the just-had-close-call flag is
read and cleared before the generator call, so a session that entered the
turn with the flag set comes out changed even though the turn fails. -/
theorem generator_failure_counterexample :
    sessJust.just_had_close_call = true ∧
    turnSessionAfterGenFailure sessJust ≠ sessJust ∧
    withRetry (fun _ => (Except.error { status := none } : Except JSError Unit)) 3 =
      Except.error { status := none } :=
  ⟨rfl, by simp [turnSessionAfterGenFailure, sessJust, statHalf, Session.mk.injEq], rfl⟩

/-- C4 amended: when every generator attempt fails, withRetry surfaces an
error and the turn is not committed — the stored stats, age, relationships,
history, close-call count and died flag are untouched — but the
just-had-close-call flag is consumed: the store is left exactly at the
input session with that one flag cleared. -/
theorem generator_failure_leaves_state {α : Type}
    (fn : ℕ → Except JSError α) (maxAttempts : ℕ) (session : Session)
    (h : ∀ i, ∃ e, fn i = Except.error e) :
    (∃ e, withRetry fn maxAttempts = Except.error e) ∧
    turnSessionAfterGenFailure session =
      { session with just_had_close_call := false } := by
  constructor
  · exact withRetryFrom_all_fail fn h (maxAttempts - 1) 1
  · unfold turnSessionAfterGenFailure
    rcases session with ⟨a, st, rel, hi, cc, j, d⟩
    split_ifs with hj <;> simp_all

theorem generator_failure_leaves_state_witness :
    (∃ e, withRetry (fun _ => (Except.error { status := some 500 } : Except JSError Unit)) 3 =
      Except.error e) ∧
    turnSessionAfterGenFailure sessJust =
      { sessJust with just_had_close_call := false } :=
  generator_failure_leaves_state
    (fun _ => (Except.error { status := some 500 } : Except JSError Unit)) 3 sessJust
    (fun _ => ⟨{ status := some 500 }, rfl⟩)

end LifeSim
